import Mathlib

set_option maxHeartbeats 1000000

/-
Verification development for the power_images model-field layer
(src/power_images/fields.py and src/power_images/helpers.py).

The code is a thin glue layer over a web framework: an image file attribute
class with thumbnail generation/removal, a static-asset fallback, and a
pre-save hook that deletes superseded files.  We embed it shallowly:

* file-system paths are plain strings; the POSIX dirname/basename/join and
  the single-character str.split used by the code are implemented
  structurally on character lists, following the Python semantics;
* the storage backend contract (exists/save/delete/listdir) is a list of
  stored path strings together with an explicit event log, so that claims
  about the number of writes and deletes can be stated;
* Python exceptions are an explicit error type threaded through results:
  each stateful operation returns (storage, events, Except error unit),
  the storage and log reflecting everything performed before a raise;
* the image codec is a parameter: decoding the source either succeeds or
  raises an I/O error (modelled as the decode function returning none).
-/

deriving instance DecidableEq for Except

namespace PowerImages

/-- Python posixpath.split: cut at the last slash; the head keeps no
trailing slashes unless it consists only of slashes. -/
def pySplitPath (p : String) : String × String :=
  let rev := p.toList.reverse
  let tailRev := rev.takeWhile (fun c => c != '/')
  let headRev := rev.dropWhile (fun c => c != '/')
  let head := headRev.reverse
  let head' :=
    if head.isEmpty || head.all (fun c => c == '/') then head
    else (head.reverse.dropWhile (fun c => c == '/')).reverse
  (String.mk head', String.mk tailRev.reverse)

/-- Python os.path.dirname. -/
def dirname (p : String) : String := (pySplitPath p).1

/-- Python os.path.basename. -/
def basename (p : String) : String := (pySplitPath p).2

/-- Whether a string starts with the path separator. -/
def startsWithSlash (s : String) : Bool :=
  match s.toList with
  | [] => false
  | c :: _ => c == '/'

/-- Whether a string ends with the path separator. -/
def endsWithSlash (s : String) : Bool :=
  match s.toList.getLast? with
  | some c => c == '/'
  | none => false

/-- Python os.path.join for two components (POSIX semantics). -/
def join2 (a b : String) : String :=
  if startsWithSlash b then b
  else if a == "" || endsWithSlash a then a ++ b
  else a ++ "/" ++ b

/-- Python os.path.join for three components, as used by
get_thumbnail_path. -/
def join3 (a b c : String) : String := join2 (join2 a b) c

/-- Python str.split with a one-character separator, on character lists:
"".split yields [""], separators at the ends yield empty segments. -/
def splitOnSlash : List Char → List (List Char)
  | [] => [[]]
  | c :: rest =>
    match splitOnSlash rest with
    | [] => [[]]
    | g :: gs => if c == '/' then [] :: g :: gs else (c :: g) :: gs

/-- Python url.split of a string at the slash character. -/
def pySplitSlash (s : String) : List String :=
  (splitOnSlash s.toList).map String.mk

/-- Python str.isdigit restricted to ASCII digits: true on a nonempty
string all of whose characters are digits. -/
def pyIsDigit (s : String) : Bool :=
  !s.toList.isEmpty && s.toList.all Char.isDigit

/-- Python list.insert(-1, x): insert right before the last element. -/
def insertBeforeLast (l : List String) (x : String) : List String :=
  l.dropLast ++ x :: l.getLast?.toList

/-- The Python exceptions this code can raise. -/
inductive PyError where
  | valueError : String → PyError
  | attributeError : String → PyError
  | improperlyConfigured : String → PyError
deriving DecidableEq

/-- Observable storage/record side effects of an operation. -/
inductive Event where
  | save : String → Event
  | delete : String → Event
  | saveInstance : Event
deriving DecidableEq

/-- External collaborators the field code delegates to: the storage
backend path/url resolution, the static-asset resolver, and the image
codec.  decode returns none when opening the source raises an I/O
error. -/
structure Env where
  storagePath : String → String
  storageUrl : String → String
  static : String → String
  findStatic : String → Option String
  decode : String → Option Unit

/-- The storage backend state: the set of stored path strings, kept as a
list.  Path normalisation by a concrete backend is not modelled; the
code is verified against the four-operation contract it consumes. -/
structure Storage where
  files : List String
deriving DecidableEq

/-- Storage contract: exists(path). -/
def Storage.existsP (st : Storage) (p : String) : Bool := st.files.contains p

/-- Storage contract: save(path, content); only ever called by this code
under a not-exists guard, so the file is stored at the given path. -/
def Storage.saveP (st : Storage) (p : String) : Storage := ⟨p :: st.files⟩

/-- Storage contract: delete(path). -/
def Storage.deleteP (st : Storage) (p : String) : Storage :=
  ⟨st.files.filter (fun q => decide (q ≠ p))⟩

/-- Strip a leading character sequence, or fail. -/
def dropStart : List Char → List Char → Option (List Char)
  | [], rest => some rest
  | _ :: _, [] => none
  | a :: as, b :: bs => if a == b then dropStart as bs else none

/-- Keep the first occurrence of each string. -/
def dedupAux : List String → List String → List String
  | [], _ => []
  | x :: xs, seen =>
    if seen.contains x then dedupAux xs seen else x :: dedupAux xs (x :: seen)

/-- Storage contract: the directory component of listdir(root) — the
names of the immediate subdirectories of root that contain stored
files. -/
def Storage.listdirDirs (st : Storage) (root : String) : List String :=
  dedupAux
    (st.files.filterMap (fun p =>
      match dropStart (root.toList ++ ['/']) p.toList with
      | none => none
      | some rest =>
        match splitOnSlash rest with
        | s :: _ :: _ => some (String.mk s)
        | _ => none))
    []

/-- Configuration of a UniqueImageField: its attribute name on the model
and the two thumbnail options taken by the constructor. -/
structure FieldConfig where
  name : String
  thumbnails : Bool
  thumbnail_sizes : List Nat
deriving DecidableEq

/-- A file attribute value: the owning field plus the stored relative
name.  The empty name is the falsy no-file state. -/
structure FieldFile where
  field : FieldConfig
  name : String
deriving DecidableEq

/-- The framework's value error for an access on an empty file. -/
def noFileError (fieldName : String) : PyError :=
  .valueError ("The '" ++ fieldName ++ "' attribute has no file associated with it.")

/-- The error raised by ThumbnailsMixin._require_thumbnail, naming the
offending field. -/
def notEnabledError (f : FieldFile) : PyError :=
  .valueError (f.field.name ++ " has not thumbnails enabled.")

/-- Framework file path property: require a file, then resolve through
the storage backend. -/
def FieldFile.path (env : Env) (f : FieldFile) : Except PyError String :=
  if f.name == "" then .error (noFileError f.field.name)
  else .ok (env.storagePath f.name)

/-- Framework file url property: require a file, then resolve through
the storage backend. -/
def FieldFile.url (env : Env) (f : FieldFile) : Except PyError String :=
  if f.name == "" then .error (noFileError f.field.name)
  else .ok (env.storageUrl f.name)

namespace ThumbnailsMixin

/-- ThumbnailsMixin._require_thumbnail. -/
def require_thumbnail (f : FieldFile) : Except PyError Unit :=
  if f.field.thumbnails then .ok () else .error (notEnabledError f)

/-- Framework FieldFile._require_file. -/
def require_file (f : FieldFile) : Except PyError Unit :=
  if f.name == "" then .error (noFileError f.field.name) else .ok ()

/-- ThumbnailsMixin.get_thumbnail_path: require thumbnails, then join
the dirname of the file path, the stringified size, and the basename of
the stored name.  The size argument arrives already stringified, as
Python str is the identity on the digit strings remove_thumbnails
passes. -/
def get_thumbnail_path (env : Env) (f : FieldFile) (size : String) :
    Except PyError String :=
  match require_thumbnail f with
  | .error e => .error e
  | .ok _ =>
    match FieldFile.path env f with
    | .error e => .error e
    | .ok p => .ok (join3 (dirname p) size (basename f.name))

/-- ThumbnailsMixin.generate_thumbnail: if the target path does not
exist, open the source, resize and save.  The source's except block runs
logger.warning(e.value) on an I/O error, and an IOError instance has no
attribute named value, so the attribute access itself raises an
AttributeError before anything is logged; the model reproduces that
behaviour. -/
def generate_thumbnail (env : Env) (f : FieldFile) (size : Nat) (st : Storage) :
    Storage × List Event × Except PyError Unit :=
  match require_thumbnail f with
  | .error e => (st, [], .error e)
  | .ok _ =>
  match require_file f with
  | .error e => (st, [], .error e)
  | .ok _ =>
  match get_thumbnail_path env f (toString size) with
  | .error e => (st, [], .error e)
  | .ok path =>
    if st.existsP path then (st, [], .ok ())
    else
      match env.decode (env.storagePath f.name) with
      | some _ => (st.saveP path, [Event.save path], .ok ())
      | none =>
        (st, [], .error (.attributeError "IOError object has no attribute value"))

/-- The loop body of generate_thumbnails over the configured sizes. -/
def genLoop (env : Env) (f : FieldFile) :
    List Nat → Storage → List Event → Storage × List Event × Except PyError Unit
  | [], st, evs => (st, evs, .ok ())
  | s :: rest, st, evs =>
    match generate_thumbnail env f s st with
    | (st', evs', .ok _) => genLoop env f rest st' (evs ++ evs')
    | (st', evs', .error e) => (st', evs ++ evs', .error e)

/-- ThumbnailsMixin.generate_thumbnails. -/
def generate_thumbnails (env : Env) (f : FieldFile) (st : Storage) :
    Storage × List Event × Except PyError Unit :=
  match require_thumbnail f with
  | .error e => (st, [], .error e)
  | .ok _ => genLoop env f f.field.thumbnail_sizes st []

/-- ThumbnailsMixin.get_thumbnail_url: require thumbnails; if the url is
truthy, generate the thumbnail, then insert the size right before the
last slash-separated segment of the url; otherwise fall through
returning None. -/
def get_thumbnail_url (env : Env) (f : FieldFile) (size : Nat) (st : Storage) :
    Storage × List Event × Except PyError (Option String) :=
  match require_thumbnail f with
  | .error e => (st, [], .error e)
  | .ok _ =>
  match FieldFile.url env f with
  | .error e => (st, [], .error e)
  | .ok u =>
    if u == "" then (st, [], .ok none)
    else
      match generate_thumbnail env f size st with
      | (st', evs, .error e) => (st', evs, .error e)
      | (st', evs, .ok _) =>
        let parts' := insertBeforeLast (pySplitSlash u) (toString size)
        (st', evs, .ok (some (String.intercalate "/" parts')))

/-- The loop of remove_thumbnails over the numeric directory names. -/
def removeLoop (env : Env) (f : FieldFile) :
    List String → Storage → List Event → Storage × List Event × Except PyError Unit
  | [], st, evs => (st, evs, .ok ())
  | s :: rest, st, evs =>
    match get_thumbnail_path env f s with
    | .error e => (st, evs, .error e)
    | .ok p => removeLoop env f rest (st.deleteP p) (evs ++ [Event.delete p])

/-- ThumbnailsMixin.remove_thumbnails: list the parent directory of the
file path, keep the purely numeric directory names, and delete the
co-named thumbnail file inside each.  Note the source performs no
enablement check of its own here; get_thumbnail_path inside the loop
does. -/
def remove_thumbnails (env : Env) (f : FieldFile) (st : Storage) :
    Storage × List Event × Except PyError Unit :=
  match FieldFile.path env f with
  | .error e => (st, [], .error e)
  | .ok p =>
    removeLoop env f ((st.listdirDirs (dirname p)).filter pyIsDigit) st []

/-- Framework FieldFile.delete: a no-op on an empty file, otherwise
delete the stored name from storage and, when save is requested,
re-save the owning record. -/
def djangoDelete (f : FieldFile) (st : Storage) (save : Bool) :
    Storage × List Event :=
  if f.name == "" then (st, [])
  else (st.deleteP f.name,
        Event.delete f.name :: (if save then [Event.saveInstance] else []))

/-- ThumbnailsMixin.delete: remove the thumbnails first when the field
has them enabled, then perform the framework file delete. -/
def delete (env : Env) (f : FieldFile) (st : Storage) (save : Bool) :
    Storage × List Event × Except PyError Unit :=
  if f.field.thumbnails then
    match remove_thumbnails env f st with
    | (st', evs, .error e) => (st', evs, .error e)
    | (st', evs, .ok _) =>
      let r := djangoDelete f st' save
      (r.1, evs ++ r.2, .ok ())
  else
    let r := djangoDelete f st save
    (r.1, r.2, .ok ())

end ThumbnailsMixin

/-- Root directory used for the thumbnails of a file: the dirname of its
storage path. -/
def thumbRoot (env : Env) (f : FieldFile) : String :=
  dirname (env.storagePath f.name)

/-- Storage path of the thumbnail of a file for a (stringified) size:
the width inserted as a path segment right before the basename. -/
def thumbTarget (env : Env) (f : FieldFile) (s : String) : String :=
  join3 (thumbRoot env f) s (basename f.name)

/-- The purely numeric subdirectory names of the file's parent
directory, as remove_thumbnails computes them. -/
def numericDirs (env : Env) (f : FieldFile) (st : Storage) : List String :=
  (st.listdirDirs (thumbRoot env f)).filter pyIsDigit

namespace UniqueImageField

/-- UniqueImageField.remove_unused_files, the pre-save hook: look up the
previously persisted record by primary key (DoesNotExist yields none,
as does an unset primary key); when one exists and its stored image
value differs from the record's current value, delete the old file
without re-saving the record.  The persisted state is modelled as a
lookup table from primary key to the stored image name, file equality
on this field class being name equality. -/
def remove_unused_files (env : Env) (fld : FieldConfig) (db : List (Nat × String))
    (pk : Option Nat) (current : String) (st : Storage) :
    Storage × List Event × Except PyError Unit :=
  match pk.bind (fun k => db.lookup k) with
  | none => (st, [], .ok ())
  | some oldName =>
    if oldName != current then
      ThumbnailsMixin.delete env { field := fld, name := oldName } st false
    else (st, [], .ok ())

end UniqueImageField

/-- The keyword arguments relevant to these fields in the deconstructed
representation used by the migration tooling; absent keys are none. -/
structure FieldKwargs where
  thumbnails : Option Bool := none
  thumbnail_sizes : Option (List Nat) := none
  choice_field : Option String := none
deriving DecidableEq

namespace UniqueImageField

/-- The configuration state a constructed UniqueImageField holds. -/
structure Config where
  thumbnails : Bool := false
  thumbnail_sizes : List Nat := []
deriving DecidableEq

/-- UniqueImageField construction from keyword arguments: thumbnails
defaults to False and thumbnail_sizes to the empty tuple. -/
def ofKwargs (k : FieldKwargs) : Config :=
  { thumbnails := k.thumbnails.getD false
    thumbnail_sizes := k.thumbnail_sizes.getD [] }

/-- UniqueImageField.deconstruct: the two options are written to the
keyword arguments only when thumbnails is truthy. -/
def deconstruct (c : Config) : FieldKwargs :=
  if c.thumbnails then
    { thumbnails := some c.thumbnails, thumbnail_sizes := some c.thumbnail_sizes }
  else {}

end UniqueImageField

/-- Configuration of a SelectableUniqueImageField: the base options plus
the name of the fallback choice field. -/
structure SelField where
  base : FieldConfig
  choice_field : String
deriving DecidableEq

/-- A file attribute value of a SelectableUniqueImageField, carrying the
owning model instance's other attributes so the fallback field can be
read; a missing attribute models a misconfigured field name. -/
structure SelFieldFile where
  field : SelField
  name : String
  instanceAttrs : List (String × String)
deriving DecidableEq

namespace StaticChoiceMixin

/-- View of a SelFieldFile as a plain FieldFile for the inherited
behaviour. -/
def toFieldFile (f : SelFieldFile) : FieldFile :=
  { field := f.field.base, name := f.name }

/-- StaticChoiceMixin._get_choice_field: read the fallback field off the
model instance; a missing attribute is re-raised as an
ImproperlyConfigured error. -/
def get_choice_field (f : SelFieldFile) : Except PyError String :=
  match f.instanceAttrs.lookup f.field.choice_field with
  | some v => .ok v
  | none =>
    .error (.improperlyConfigured
      ("instance has no " ++ f.field.choice_field ++ " field."))

/-- StaticChoiceMixin._get_url: when the file is empty and the fallback
value is truthy, resolve the static url; otherwise defer to the default
url property.  The fallback field is only read when the file is empty,
mirroring the short-circuit in the source. -/
def get_url (env : Env) (f : SelFieldFile) : Except PyError String :=
  if f.name == "" then
    match get_choice_field f with
    | .error e => .error e
    | .ok v =>
      if v != "" then .ok (env.static v)
      else FieldFile.url env (toFieldFile f)
  else FieldFile.url env (toFieldFile f)

/-- StaticChoiceMixin._get_path: as for the url, with the static finder,
whose result may be None. -/
def get_path (env : Env) (f : SelFieldFile) : Except PyError (Option String) :=
  if f.name == "" then
    match get_choice_field f with
    | .error e => .error e
    | .ok v =>
      if v != "" then .ok (env.findStatic v)
      else (FieldFile.path env (toFieldFile f)).map some
  else (FieldFile.path env (toFieldFile f)).map some

end StaticChoiceMixin

namespace ThumbnailChoiceMixin

/-- ThumbnailChoiceMixin.generate_thumbnail: only when the file is
truthy does the inherited generation run; with a file present the
overridden path and url properties coincide with the defaults, so the
inherited behaviour is that of ThumbnailsMixin on the underlying
file. -/
def generate_thumbnail (env : Env) (f : SelFieldFile) (size : Nat) (st : Storage) :
    Storage × List Event × Except PyError Unit :=
  if f.name != "" then
    ThumbnailsMixin.generate_thumbnail env (StaticChoiceMixin.toFieldFile f) size st
  else (st, [], .ok ())

/-- ThumbnailChoiceMixin.remove_thumbnails, guarded the same way. -/
def remove_thumbnails (env : Env) (f : SelFieldFile) (st : Storage) :
    Storage × List Event × Except PyError Unit :=
  if f.name != "" then
    ThumbnailsMixin.remove_thumbnails env (StaticChoiceMixin.toFieldFile f) st
  else (st, [], .ok ())

end ThumbnailChoiceMixin

namespace SelectableUniqueImageField

/-- The configuration state a constructed SelectableUniqueImageField
holds. -/
structure SConfig where
  thumbnails : Bool := false
  thumbnail_sizes : List Nat := []
  choice_field : String
deriving DecidableEq

/-- SelectableUniqueImageField construction from keyword arguments: the
choice_field argument is required, so construction fails without it. -/
def ofKwargs (k : FieldKwargs) : Option SConfig :=
  k.choice_field.map (fun cf =>
    { thumbnails := k.thumbnails.getD false
      thumbnail_sizes := k.thumbnail_sizes.getD []
      choice_field := cf })

/-- SelectableUniqueImageField.deconstruct: the base behaviour plus the
choice_field keyword, which is always written. -/
def deconstruct (c : SConfig) : FieldKwargs :=
  { UniqueImageField.deconstruct
      { thumbnails := c.thumbnails, thumbnail_sizes := c.thumbnail_sizes } with
    choice_field := some c.choice_field }

end SelectableUniqueImageField

/-- A concrete environment for witnesses: media-rooted storage, static
resolution, and a codec that always decodes. -/
def env0 : Env :=
  { storagePath := fun n => "/media/" ++ n
    storageUrl := fun n => "/media/" ++ n
    static := fun v => "/static/" ++ v
    findStatic := fun v => some ("/srv/static/" ++ v)
    decode := fun _ => some () }

/-- A concrete environment whose codec always fails to open the
source. -/
def env2 : Env :=
  { env0 with decode := fun _ => none }

/-- A thumbnails-enabled field configuration for witnesses. -/
def fld0 : FieldConfig :=
  { name := "image", thumbnails := true, thumbnail_sizes := [100, 200] }

/-- A thumbnails-disabled field configuration for witnesses. -/
def fld1 : FieldConfig :=
  { name := "image", thumbnails := false, thumbnail_sizes := [] }

/-- A stored file on the enabled field. -/
def file0 : FieldFile := { field := fld0, name := "img/a.png" }

/-- A stored file on the disabled field. -/
def file1 : FieldFile := { field := fld1, name := "img/a.png" }

/-- A selectable field configuration for witnesses. -/
def sfld0 : SelField := { base := fld0, choice_field := "default_image" }

/-- An empty (fallback-active) selectable file whose instance holds a
fallback value. -/
def sfile0 : SelFieldFile :=
  { field := sfld0, name := ""
    instanceAttrs := [("default_image", "img/default.png")] }

/-- A non-empty selectable file on the same instance. -/
def sfile1 : SelFieldFile :=
  { field := sfld0, name := "img/a.png"
    instanceAttrs := [("default_image", "img/default.png")] }

/-- A storage with two numeric thumbnail directories next to the
original, for the removal witness. -/
def st5 : Storage :=
  ⟨["/media/img/100/a.png", "/media/img/200/a.png", "img/a.png"]⟩

/-- Reduction of the enablement check on an enabled field. -/
theorem require_thumbnail_ok (f : FieldFile) (hth : f.field.thumbnails = true) :
    ThumbnailsMixin.require_thumbnail f = .ok () := by
  simp [ThumbnailsMixin.require_thumbnail, hth]

/-- Reduction of the enablement check on a disabled field. -/
theorem require_thumbnail_err (f : FieldFile) (hth : f.field.thumbnails = false) :
    ThumbnailsMixin.require_thumbnail f = .error (notEnabledError f) := by
  simp [ThumbnailsMixin.require_thumbnail, hth]

/-- Reduction of the file check on a non-empty file. -/
theorem require_file_ok (f : FieldFile) (hname : f.name ≠ "") :
    ThumbnailsMixin.require_file f = .ok () := by
  simp [ThumbnailsMixin.require_file, hname]

/-- Reduction of the path property on a non-empty file. -/
theorem fieldFile_path_ok (env : Env) (f : FieldFile) (hname : f.name ≠ "") :
    FieldFile.path env f = .ok (env.storagePath f.name) := by
  simp [FieldFile.path, hname]

/-- Reduction of the url property on a non-empty file. -/
theorem fieldFile_url_ok (env : Env) (f : FieldFile) (hname : f.name ≠ "") :
    FieldFile.url env f = .ok (env.storageUrl f.name) := by
  simp [FieldFile.url, hname]

/-- On an enabled field with a file, get_thumbnail_path computes the
thumbnail target path. -/
theorem get_thumbnail_path_ok (env : Env) (f : FieldFile) (s : String)
    (hth : f.field.thumbnails = true) (hname : f.name ≠ "") :
    ThumbnailsMixin.get_thumbnail_path env f s = .ok (thumbTarget env f s) := by
  simp [ThumbnailsMixin.get_thumbnail_path, require_thumbnail_ok f hth,
    fieldFile_path_ok env f hname, thumbTarget, thumbRoot]

/-- The removal loop on an enabled field with a file deletes exactly the
thumbnail targets of the listed sizes, in order, appending the
corresponding delete events. -/
theorem removeLoop_deletes (env : Env) (f : FieldFile)
    (hth : f.field.thumbnails = true) (hname : f.name ≠ "") :
    ∀ (sizes : List String) (st : Storage) (evs : List Event),
      ThumbnailsMixin.removeLoop env f sizes st evs
        = (⟨st.files.filter
              (fun q => decide (∀ s ∈ sizes, q ≠ thumbTarget env f s))⟩,
           evs ++ sizes.map (fun s => Event.delete (thumbTarget env f s)),
           .ok ()) := by
  intro sizes
  induction sizes with
  | nil =>
    intro st evs
    simp [ThumbnailsMixin.removeLoop]
  | cons s rest ih =>
    intro st evs
    simp only [ThumbnailsMixin.removeLoop,
      get_thumbnail_path_ok env f s hth hname]
    rw [ih]
    have hfiles :
        (st.deleteP (thumbTarget env f s)).files.filter
            (fun q => decide (∀ s' ∈ rest, q ≠ thumbTarget env f s'))
          = st.files.filter
              (fun q => decide (∀ s' ∈ s :: rest, q ≠ thumbTarget env f s')) := by
      show (st.files.filter (fun q => decide (q ≠ thumbTarget env f s))).filter _
          = _
      rw [List.filter_filter]
      refine List.filter_congr ?_
      intro q _
      by_cases h1 : q = thumbTarget env f s <;>
        by_cases h2 : ∀ s' ∈ rest, q ≠ thumbTarget env f s' <;>
        simp [List.forall_mem_cons, h1, h2]
    rw [hfiles]
    simp

/-- On an enabled field with a file, remove_thumbnails completes without
error: the storage keeps exactly the entries that are not a thumbnail
target of a numeric directory, and the event log holds one delete per
numeric directory. -/
theorem remove_thumbnails_ok (env : Env) (f : FieldFile) (st : Storage)
    (hth : f.field.thumbnails = true) (hname : f.name ≠ "") :
    ThumbnailsMixin.remove_thumbnails env f st
      = (⟨st.files.filter
            (fun q => decide (∀ d ∈ numericDirs env f st,
              q ≠ thumbTarget env f d))⟩,
         (numericDirs env f st).map (fun d => Event.delete (thumbTarget env f d)),
         .ok ()) := by
  simp only [ThumbnailsMixin.remove_thumbnails, fieldFile_path_ok env f hname]
  rw [removeLoop_deletes env f hth hname]
  rfl

/-- C1: for a thumbnails-enabled file with a non-empty stored name whose
storage path p has the stored name's basename, get_thumbnail_path for a
positive size is exactly join(dirname(p), str(size), basename(p)): the
width inserted as a path segment immediately before the filename. -/
theorem C1_thumbnail_path_formula (env : Env) (f : FieldFile) (size : Nat)
    (hth : f.field.thumbnails = true) (hname : f.name ≠ "")
    (hbase : basename (env.storagePath f.name) = basename f.name)
    (hpos : 0 < size) :
    ThumbnailsMixin.get_thumbnail_path env f (toString size)
      = .ok (join3 (dirname (env.storagePath f.name)) (toString size)
          (basename (env.storagePath f.name))) := by
  rw [get_thumbnail_path_ok env f _ hth hname, thumbTarget, thumbRoot, hbase]

/-- Witness for C1 at a concrete field, file and size. -/
theorem C1_thumbnail_path_formula_witness :
    (file0.field.thumbnails = true ∧ file0.name ≠ "" ∧
      basename (env0.storagePath file0.name) = basename file0.name ∧ 0 < 100) ∧
    ThumbnailsMixin.get_thumbnail_path env0 file0 (toString 100)
      = .ok (join3 (dirname (env0.storagePath file0.name)) (toString 100)
          (basename (env0.storagePath file0.name))) :=
  ⟨⟨rfl, by decide, by decide, by decide⟩,
   C1_thumbnail_path_formula env0 file0 100 rfl (by decide) (by decide) (by decide)⟩

/-- C2: on a failing image decode the source's except block evaluates
the value attribute of the caught I/O error, which does not exist, so an
AttributeError escapes to the caller instead of a logged warning; no
thumbnail is written and no event is performed.  This evaluates the code
at a concrete failing input: an enabled field with a stored file whose
source cannot be opened. -/
theorem C2_decode_failure_raises :
    ThumbnailsMixin.generate_thumbnail env2 file0 100 ⟨[]⟩
      = (⟨[]⟩, [],
         .error (.attributeError "IOError object has no attribute value")) := by
  decide

/-- Counterexample to C8: remove_thumbnails on a thumbnails-disabled
field with no numeric subdirectory present completes without raising any
error, so not every thumbnail operation raises a ValueError when
thumbnailing is disabled. -/
theorem C8_remove_thumbnails_no_check :
    ThumbnailsMixin.remove_thumbnails env0 file1 ⟨[]⟩ = (⟨[]⟩, [], .ok ()) := by
  decide

/-- C8 as amended: on a thumbnails-disabled field, get_thumbnail_path,
generate_thumbnail, generate_thumbnails and get_thumbnail_url raise the
ValueError naming the offending field; remove_thumbnails performs no
enablement check of its own: with no numeric subdirectory it completes
silently deleting nothing, and with one present it raises the same
ValueError (through its internal get_thumbnail_path call) before any
deletion. -/
theorem C8_disabled_ops_raise (env : Env) (f : FieldFile) (size : Nat)
    (s : String) (st : Storage) (hth : f.field.thumbnails = false) :
    ThumbnailsMixin.get_thumbnail_path env f s = .error (notEnabledError f) ∧
    ThumbnailsMixin.generate_thumbnail env f size st
      = (st, [], .error (notEnabledError f)) ∧
    ThumbnailsMixin.generate_thumbnails env f st
      = (st, [], .error (notEnabledError f)) ∧
    ThumbnailsMixin.get_thumbnail_url env f size st
      = (st, [], .error (notEnabledError f)) ∧
    (numericDirs env f st = [] → f.name ≠ "" →
      ThumbnailsMixin.remove_thumbnails env f st = (st, [], .ok ())) ∧
    (∀ d ds, numericDirs env f st = d :: ds → f.name ≠ "" →
      ThumbnailsMixin.remove_thumbnails env f st
        = (st, [], .error (notEnabledError f))) := by
  have herr := require_thumbnail_err f hth
  refine ⟨?_, ?_, ?_, ?_, ?_, ?_⟩
  · simp [ThumbnailsMixin.get_thumbnail_path, herr]
  · simp [ThumbnailsMixin.generate_thumbnail, herr]
  · simp [ThumbnailsMixin.generate_thumbnails, herr]
  · simp [ThumbnailsMixin.get_thumbnail_url, herr]
  · intro hdirs hname
    simp only [ThumbnailsMixin.remove_thumbnails, fieldFile_path_ok env f hname]
    have : (st.listdirDirs (dirname (env.storagePath f.name))).filter pyIsDigit
        = [] := hdirs
    rw [this]
    simp [ThumbnailsMixin.removeLoop]
  · intro d ds hdirs hname
    simp only [ThumbnailsMixin.remove_thumbnails, fieldFile_path_ok env f hname]
    have : (st.listdirDirs (dirname (env.storagePath f.name))).filter pyIsDigit
        = d :: ds := hdirs
    rw [this]
    simp [ThumbnailsMixin.removeLoop, ThumbnailsMixin.get_thumbnail_path, herr]

/-- Witness for C8 as amended, on a disabled field at a concrete size
and storage. -/
theorem C8_disabled_ops_raise_witness :
    (fld1.thumbnails = false) ∧
    ThumbnailsMixin.get_thumbnail_path env0 file1 "100"
      = .error (notEnabledError file1) :=
  ⟨rfl, (C8_disabled_ops_raise env0 file1 100 "100" ⟨[]⟩ rfl).1⟩

/-- Counterexample to C9: a field constructed with thumbnails disabled
but a non-empty size list deconstructs to keyword arguments that omit
the size list, so reconstruction yields the default empty size list, not
the original configuration. -/
theorem C9_sizes_dropped_when_disabled :
    UniqueImageField.ofKwargs (UniqueImageField.deconstruct
        { thumbnails := false, thumbnail_sizes := [100] })
      ≠ { thumbnails := false, thumbnail_sizes := ([100] : List Nat) } := by
  decide

/-- C9 as amended: the deconstruct/reconstruct round-trip preserves the
thumbnails flag always and the fallback field name always, and preserves
the size list exactly when thumbnails is enabled; with thumbnails
disabled the size list comes back as the constructor default (empty). -/
theorem C9_deconstruct_roundtrip (c : UniqueImageField.Config)
    (s : SelectableUniqueImageField.SConfig) :
    UniqueImageField.ofKwargs (UniqueImageField.deconstruct c)
      = { thumbnails := c.thumbnails
          thumbnail_sizes := if c.thumbnails then c.thumbnail_sizes else [] } ∧
    SelectableUniqueImageField.ofKwargs (SelectableUniqueImageField.deconstruct s)
      = some { thumbnails := s.thumbnails
               thumbnail_sizes := if s.thumbnails then s.thumbnail_sizes else []
               choice_field := s.choice_field } := by
  constructor
  · cases hc : c.thumbnails <;>
      simp [UniqueImageField.ofKwargs, UniqueImageField.deconstruct, hc]
  · cases hs : s.thumbnails <;>
      simp [SelectableUniqueImageField.ofKwargs,
        SelectableUniqueImageField.deconstruct, UniqueImageField.deconstruct, hs]

/-- C7: on a combined thumbnail-and-fallback file whose primary file is
empty, generate_thumbnail and remove_thumbnails are complete no-ops:
storage is unchanged, no event is performed, and no error is raised. -/
theorem C7_fallback_noops (env : Env) (f : SelFieldFile) (size : Nat)
    (st : Storage) (hempty : f.name = "") :
    ThumbnailChoiceMixin.generate_thumbnail env f size st = (st, [], .ok ()) ∧
    ThumbnailChoiceMixin.remove_thumbnails env f st = (st, [], .ok ()) := by
  constructor <;>
    simp [ThumbnailChoiceMixin.generate_thumbnail,
      ThumbnailChoiceMixin.remove_thumbnails, hempty]

/-- Witness for C7 at a concrete empty fallback-active file. -/
theorem C7_fallback_noops_witness :
    (sfile0.name = "") ∧
    ThumbnailChoiceMixin.generate_thumbnail env0 sfile0 100 st5
      = (st5, [], .ok ()) ∧
    ThumbnailChoiceMixin.remove_thumbnails env0 sfile0 st5
      = (st5, [], .ok ()) :=
  ⟨rfl, C7_fallback_noops env0 sfile0 100 st5 rfl⟩

/-- C6: with the fallback field readable off the instance, the url and
path properties resolve through the static-asset machinery exactly when
the primary file is empty and the fallback value is non-empty, and defer
to the default file-field properties in every other case. -/
theorem C6_static_fallback (env : Env) (f : SelFieldFile) (v : String)
    (hv : f.instanceAttrs.lookup f.field.choice_field = some v) :
    ((f.name = "" ∧ v ≠ "") →
      StaticChoiceMixin.get_url env f = .ok (env.static v) ∧
      StaticChoiceMixin.get_path env f = .ok (env.findStatic v)) ∧
    (¬(f.name = "" ∧ v ≠ "") →
      StaticChoiceMixin.get_url env f
        = FieldFile.url env (StaticChoiceMixin.toFieldFile f) ∧
      StaticChoiceMixin.get_path env f
        = (FieldFile.path env (StaticChoiceMixin.toFieldFile f)).map some) := by
  constructor
  · rintro ⟨h1, h2⟩
    constructor <;>
      simp [StaticChoiceMixin.get_url, StaticChoiceMixin.get_path,
        StaticChoiceMixin.get_choice_field, hv, h1, h2]
  · intro h
    by_cases h1 : f.name = ""
    · have h2 : v = "" := by
        by_contra h2
        exact h ⟨h1, h2⟩
      constructor <;>
        simp [StaticChoiceMixin.get_url, StaticChoiceMixin.get_path,
          StaticChoiceMixin.get_choice_field, hv, h1, h2]
    · constructor <;>
        simp [StaticChoiceMixin.get_url, StaticChoiceMixin.get_path, h1]

/-- Witness for C6 at a concrete fallback-active file and a concrete
file-present one. -/
theorem C6_static_fallback_witness :
    (sfile0.instanceAttrs.lookup sfile0.field.choice_field
        = some "img/default.png") ∧
    (StaticChoiceMixin.get_url env0 sfile0
        = .ok (env0.static "img/default.png") ∧
      StaticChoiceMixin.get_path env0 sfile0
        = .ok (env0.findStatic "img/default.png")) :=
  ⟨by decide,
   (C6_static_fallback env0 sfile0 "img/default.png" (by decide)).1
     ⟨rfl, by decide⟩⟩

/-- C3: when the pre-save hook fires, a persisted record found under
the instance's primary key whose stored image name differs from the
current one has its old file deleted from storage, with exactly one
delete of the old name in the event log and no record re-save — on a
thumbnails-enabled field preceded only by the deletes of the old file's
thumbnail targets; when the values are equal or no persisted record
exists, nothing happens at all. -/
theorem C3_presave_old_file_delete (env : Env) (fld : FieldConfig)
    (db : List (Nat × String)) (pk : Option Nat) (current : String)
    (st : Storage) :
    (∀ old, pk.bind (fun k => db.lookup k) = some old → old ≠ current →
      old ≠ "" →
      UniqueImageField.remove_unused_files env fld db pk current st
        = ((if fld.thumbnails then
              Storage.deleteP
                ⟨st.files.filter (fun q =>
                  decide (∀ d ∈ numericDirs env { field := fld, name := old } st,
                    q ≠ thumbTarget env { field := fld, name := old } d))⟩ old
            else st.deleteP old),
           (if fld.thumbnails then
              (numericDirs env { field := fld, name := old } st).map
                (fun d => Event.delete
                  (thumbTarget env { field := fld, name := old } d))
            else []) ++ [Event.delete old],
           .ok ())) ∧
    (∀ old, pk.bind (fun k => db.lookup k) = some old → old = current →
      UniqueImageField.remove_unused_files env fld db pk current st
        = (st, [], .ok ())) ∧
    (pk.bind (fun k => db.lookup k) = none →
      UniqueImageField.remove_unused_files env fld db pk current st
        = (st, [], .ok ())) := by
  refine ⟨?_, ?_, ?_⟩
  · intro old hold hne hnemp
    cases hth : fld.thumbnails with
    | false =>
      simp [UniqueImageField.remove_unused_files, hold, hne,
        ThumbnailsMixin.delete, hth, ThumbnailsMixin.djangoDelete, hnemp]
    | true =>
      simp [UniqueImageField.remove_unused_files, hold, hne,
        ThumbnailsMixin.delete, hth,
        remove_thumbnails_ok env { field := fld, name := old } st hth hnemp,
        ThumbnailsMixin.djangoDelete, hnemp]
  · intro old hold heq
    simp [UniqueImageField.remove_unused_files, hold, heq]
  · intro h
    simp [UniqueImageField.remove_unused_files, h]

/-- Witness for C3: a concrete persisted record whose stored image
differs from the current value loses exactly its old file. -/
theorem C3_presave_old_file_delete_witness :
    ((Option.bind (some 1) (fun k =>
        List.lookup k [(1, "img/old.png")]) = some "img/old.png") ∧
      "img/old.png" ≠ "img/new.png" ∧ "img/old.png" ≠ "") ∧
    UniqueImageField.remove_unused_files env0 fld1 [(1, "img/old.png")]
        (some 1) "img/new.png" ⟨["img/old.png", "img/new.png"]⟩
      = ((⟨["img/old.png", "img/new.png"]⟩ : Storage).deleteP "img/old.png",
         [Event.delete "img/old.png"], .ok ()) :=
  ⟨⟨by decide, by decide, by decide⟩,
   (C3_presave_old_file_delete env0 fld1 [(1, "img/old.png")] (some 1)
       "img/new.png" ⟨["img/old.png", "img/new.png"]⟩).1
     "img/old.png" (by decide) (by decide) (by decide)⟩

/-- C4: on an enabled field with a decodable source whose thumbnail for
the given size is absent, generate_thumbnail writes it with exactly one
storage save, and an immediately repeated call finds the target path
existing and performs no operation: one save in total. -/
theorem C4_generate_thumbnail_idempotent (env : Env) (f : FieldFile)
    (size : Nat) (st : Storage)
    (hth : f.field.thumbnails = true) (hname : f.name ≠ "")
    (hdec : env.decode (env.storagePath f.name) = some ())
    (hnew : st.existsP (thumbTarget env f (toString size)) = false) :
    ∃ st1,
      ThumbnailsMixin.generate_thumbnail env f size st
        = (st1, [Event.save (thumbTarget env f (toString size))], .ok ()) ∧
      ThumbnailsMixin.generate_thumbnail env f size st1 = (st1, [], .ok ()) := by
  refine ⟨st.saveP (thumbTarget env f (toString size)), ?_, ?_⟩
  · simp [ThumbnailsMixin.generate_thumbnail, require_thumbnail_ok f hth,
      require_file_ok f hname, get_thumbnail_path_ok env f _ hth hname,
      hnew, hdec]
  · simp [ThumbnailsMixin.generate_thumbnail, require_thumbnail_ok f hth,
      require_file_ok f hname, get_thumbnail_path_ok env f _ hth hname,
      Storage.existsP, Storage.saveP]

/-- Witness for C4 at a concrete enabled field, fresh storage and
size. -/
theorem C4_generate_thumbnail_idempotent_witness :
    (file0.field.thumbnails = true ∧ file0.name ≠ "" ∧
      env0.decode (env0.storagePath file0.name) = some () ∧
      (⟨["img/a.png"]⟩ : Storage).existsP
        (thumbTarget env0 file0 (toString 100)) = false) ∧
    (∃ st1,
      ThumbnailsMixin.generate_thumbnail env0 file0 100 ⟨["img/a.png"]⟩
        = (st1, [Event.save (thumbTarget env0 file0 (toString 100))], .ok ()) ∧
      ThumbnailsMixin.generate_thumbnail env0 file0 100 st1
        = (st1, [], .ok ())) :=
  ⟨⟨rfl, by decide, rfl, by decide⟩,
   C4_generate_thumbnail_idempotent env0 file0 100 ⟨["img/a.png"]⟩ rfl
     (by decide) rfl (by decide)⟩

/-- C5: remove_thumbnails on an enabled field with a file deletes, for
each purely numeric subdirectory of the file's parent directory, exactly
the co-named file inside it — the storage keeps precisely the entries
that are none of these thumbnail targets, and the event log holds
exactly one delete per numeric directory; with no numeric subdirectory
it deletes nothing. -/
theorem C5_remove_thumbnails_spec (env : Env) (f : FieldFile) (st : Storage)
    (hth : f.field.thumbnails = true) (hname : f.name ≠ "") :
    ThumbnailsMixin.remove_thumbnails env f st
      = (⟨st.files.filter
            (fun q => decide (∀ d ∈ numericDirs env f st,
              q ≠ thumbTarget env f d))⟩,
         (numericDirs env f st).map (fun d => Event.delete (thumbTarget env f d)),
         .ok ()) ∧
    (numericDirs env f st = [] →
      ThumbnailsMixin.remove_thumbnails env f st = (st, [], .ok ())) := by
  refine ⟨remove_thumbnails_ok env f st hth hname, ?_⟩
  intro hdirs
  rw [remove_thumbnails_ok env f st hth hname, hdirs]
  simp

/-- Witness for C5: a storage holding thumbnail directories 100 and 200
next to the original file loses exactly the two co-named thumbnail
files. -/
theorem C5_remove_thumbnails_spec_witness :
    (file0.field.thumbnails = true ∧ file0.name ≠ "") ∧
    ThumbnailsMixin.remove_thumbnails env0 file0 st5
      = (⟨st5.files.filter
            (fun q => decide (∀ d ∈ numericDirs env0 file0 st5,
              q ≠ thumbTarget env0 file0 d))⟩,
         (numericDirs env0 file0 st5).map
           (fun d => Event.delete (thumbTarget env0 file0 d)),
         .ok ()) :=
  ⟨⟨rfl, by decide⟩,
   (C5_remove_thumbnails_spec env0 file0 st5 rfl (by decide)).1⟩

/-- Python list.insert(-1, x) on a list with a last element places x
right before it. -/
theorem insertBeforeLast_concat (l : List String) (a x : String) :
    insertBeforeLast (l ++ [a]) x = l ++ x :: [a] := by
  simp [insertBeforeLast]

/-- A successful generate_thumbnail leaves the thumbnail target path
existing in storage. -/
theorem generate_ok_exists (env : Env) (f : FieldFile) (size : Nat)
    (st st' : Storage) (evs : List Event)
    (hth : f.field.thumbnails = true) (hname : f.name ≠ "")
    (hgen : ThumbnailsMixin.generate_thumbnail env f size st
      = (st', evs, .ok ())) :
    st'.existsP (thumbTarget env f (toString size)) = true := by
  simp only [ThumbnailsMixin.generate_thumbnail, require_thumbnail_ok f hth,
    require_file_ok f hname, get_thumbnail_path_ok env f _ hth hname] at hgen
  by_cases hex : st.existsP (thumbTarget env f (toString size)) = true
  · rw [if_pos hex] at hgen
    have h1 : st = st' := congrArg Prod.fst hgen
    exact h1 ▸ hex
  · rw [if_neg hex] at hgen
    cases hdec : env.decode (env.storagePath f.name) with
    | none => rw [hdec] at hgen; simp at hgen
    | some u =>
      rw [hdec] at hgen
      have h1 : st.saveP (thumbTarget env f (toString size)) = st' :=
        congrArg Prod.fst hgen
      rw [← h1]
      simp [Storage.existsP, Storage.saveP]

/-- C10: on an enabled field with a file, get_thumbnail_url returns None
and performs nothing when the file's url is empty; when the url is
non-empty it first runs the thumbnail generation for the size — after
which the target path exists — and returns the url with the stringified
size inserted as a segment immediately before the final slash-separated
segment. -/
theorem C10_get_thumbnail_url_spec (env : Env) (f : FieldFile) (size : Nat)
    (st : Storage) (hth : f.field.thumbnails = true) (hname : f.name ≠ "") :
    (env.storageUrl f.name = "" →
      ThumbnailsMixin.get_thumbnail_url env f size st = (st, [], .ok none)) ∧
    (∀ init lastSeg,
      pySplitSlash (env.storageUrl f.name) = init ++ [lastSeg] →
      env.storageUrl f.name ≠ "" →
      ∀ st' evs,
        ThumbnailsMixin.generate_thumbnail env f size st = (st', evs, .ok ()) →
        ThumbnailsMixin.get_thumbnail_url env f size st
          = (st', evs, .ok (some (String.intercalate "/"
              (init ++ toString size :: [lastSeg])))) ∧
        st'.existsP (thumbTarget env f (toString size)) = true) := by
  constructor
  · intro hurl
    simp [ThumbnailsMixin.get_thumbnail_url, require_thumbnail_ok f hth,
      fieldFile_url_ok env f hname, hurl]
  · intro init lastSeg hsplit hurl st' evs hgen
    refine ⟨?_, generate_ok_exists env f size st st' evs hth hname hgen⟩
    have hcond : (env.storageUrl f.name == "") = false := by
      simpa using hurl
    simp only [ThumbnailsMixin.get_thumbnail_url, require_thumbnail_ok f hth,
      fieldFile_url_ok env f hname, hcond, Bool.false_eq_true, if_false,
      hgen, hsplit, insertBeforeLast_concat]

/-- Witness for C10 at a concrete enabled field, empty storage and
size. -/
theorem C10_get_thumbnail_url_spec_witness :
    (file0.field.thumbnails = true ∧ file0.name ≠ "" ∧
      pySplitSlash (env0.storageUrl file0.name)
        = ["", "media", "img"] ++ ["a.png"] ∧
      env0.storageUrl file0.name ≠ "" ∧
      ThumbnailsMixin.generate_thumbnail env0 file0 100 ⟨[]⟩
        = (⟨["/media/img/100/a.png"]⟩, [Event.save "/media/img/100/a.png"],
           .ok ())) ∧
    (ThumbnailsMixin.get_thumbnail_url env0 file0 100 ⟨[]⟩
      = (⟨["/media/img/100/a.png"]⟩, [Event.save "/media/img/100/a.png"],
         .ok (some (String.intercalate "/"
           (["", "media", "img"] ++ toString 100 :: ["a.png"])))) ∧
     (⟨["/media/img/100/a.png"]⟩ : Storage).existsP
       (thumbTarget env0 file0 (toString 100)) = true) :=
  ⟨⟨rfl, by decide, by decide, by decide, by decide⟩,
   (C10_get_thumbnail_url_spec env0 file0 100 ⟨[]⟩ rfl (by decide)).2
     ["", "media", "img"] "a.png" (by decide) (by decide)
     ⟨["/media/img/100/a.png"]⟩ [Event.save "/media/img/100/a.png"]
     (by decide)⟩

end PowerImages
